import Mathlib

/-!
Shallow embedding of the poket-app client screens.

The embedding covers the two screens the specification's "Optimistic List
Store" abstraction is drawn from:

* `HomeScreen` (src/unnamed/part_000): the task list with its fetch,
  status-toggle, delete, category-filter and completion-partition logic;
* `NewExpenseScreen` (src/src/screens/NewExpenseScreen.js): expense form
  validation and the date formatting/parsing boundary.

Stateful screen handlers are embedded as pure functions from their inputs
(the current `tasks` collection plus parameters) and an explicit outcome of
each awaited external call (`remoteOk`, `reminderOk` : does the awaited
promise resolve or reject) to the resulting collection together with an
ordered trace of observable effects (`Event` list): remote calls issued,
local state writes (`setTasks`), notification-scheduler calls, and alerts.
`setTasks` functional updaters are applied synchronously at the call site.
The UI busy flags (`setIsLoading` / `setIsUpdating`) are pure spinner state
touched on every path and are omitted from the traces.
-/

namespace Poket

/-- A task entity as held in `HomeScreen`'s `tasks` state: the fields the
embedded logic reads (`id`, `status`, `category_id`) plus the display title. -/
structure Task where
  id : Int
  title : String
  status : Bool
  category_id : Option Int
  deriving DecidableEq, Repr

/-- One observable effect of a screen handler, in program order: a remote
API call being issued, a local `setTasks` write, a notification-scheduler
call, an alert, or a navigation action. -/
inductive Event where
  | remoteUpdate (id : Int) (status : Bool)
  | remoteDelete (id : Int)
  | remoteGetTasks
  | remoteCreateExpense (title : String)
  | remoteUpdateExpense (id : Int) (title : String)
  | localSet (ts : List Task)
  | schedRem (id : Int) (status : Bool)
  | cancelRem (id : Int)
  | alertMsg (title msg : String)
  | navGoBack
  deriving DecidableEq, Repr

/-- Is this event a local `setTasks` write? -/
def Event.isLocalSet : Event → Bool
  | Event.localSet _ => true
  | _ => false

/-- Is this event a notification-scheduler `scheduleTaskReminder` call? -/
def Event.isSchedRem : Event → Bool
  | Event.schedRem _ _ => true
  | _ => false

/-- Is this event a remote API call being issued? -/
def Event.isRemote : Event → Bool
  | Event.remoteUpdate _ _ => true
  | Event.remoteDelete _ => true
  | Event.remoteGetTasks => true
  | Event.remoteCreateExpense _ => true
  | Event.remoteUpdateExpense _ _ => true
  | _ => false

/-- Result of a `HomeScreen` handler: the `tasks` collection it leaves
behind and the trace of effects it emitted. -/
structure HandlerResult where
  tasks : List Task
  events : List Event
  deriving DecidableEq, Repr

/-- Result of `fetchTasks`: the collection, the effect trace, and the
value the async function returns (`none`: it returns `undefined`). -/
structure FetchResult where
  tasks : List Task
  events : List Event
  retVal : Option Nat
  deriving DecidableEq, Repr

/-- `HomeScreen.fetchTasks` (src/unnamed/part_000 lines 27-43): awaits
`api.getTasks()`; on success stores the response with `setTasks` and calls
`scheduleTaskReminder` for each task with falsy `status`; on rejection shows
the fetch-error alert and leaves `tasks` untouched. The function body has no
`return` statement, so its returned value is `undefined` (`retVal = none`).
`response = none` models the awaited call rejecting. -/
def fetchTasks (prev : List Task) (response : Option (List Task)) : FetchResult :=
  match response with
  | some ts =>
      ⟨ts,
       Event.remoteGetTasks :: Event.localSet ts ::
         ts.filterMap (fun task =>
           if task.status then none else some (Event.schedRem task.id task.status)),
       none⟩
  | none =>
      ⟨prev, [Event.remoteGetTasks, Event.alertMsg "Error" "Failed to fetch tasks"], none⟩

/-- `HomeScreen.handleToggleStatus` (src/unnamed/part_000 lines 87-111):
computes `newStatus = !currentStatus`, awaits `api.updateTaskStatus` first;
only on success does it run the `setTasks` map that patches the matching
task's `status` (calling `scheduleTaskReminder` on the updated copy inside
the map) and then shows the success alert. On rejection it shows the error
alert and performs no local mutation. -/
def handleToggleStatus (tasks : List Task) (taskId : Int) (currentStatus : Bool)
    (remoteOk : Bool) : HandlerResult :=
  let newStatus := !currentStatus
  if remoteOk then
    let newTasks := tasks.map (fun task =>
      if task.id = taskId then { task with status := newStatus } else task)
    let schedEvents := tasks.filterMap (fun task =>
      if task.id = taskId then some (Event.schedRem task.id newStatus) else none)
    ⟨newTasks,
     Event.remoteUpdate taskId newStatus ::
       schedEvents ++
         [Event.localSet newTasks,
          Event.alertMsg "Success"
            ("Task marked as " ++ if newStatus then "completed" else "incomplete")]⟩
  else
    ⟨tasks,
     [Event.remoteUpdate taskId newStatus,
      Event.alertMsg "Error" "Failed to update task status"]⟩

/-- `TaskCard.handleStatusChange` (src/unnamed/part_000 lines 173-191):
same remote-first shape as `handleToggleStatus` for the card's `task`;
on success it runs the `setTasks` map and then calls
`scheduleTaskReminder({ ...task, status: !task.status })`; no success alert.
On rejection it shows the error alert and performs no local mutation. -/
def handleStatusChange (tasks : List Task) (task : Task) (remoteOk : Bool) :
    HandlerResult :=
  if remoteOk then
    let newTasks := tasks.map (fun t =>
      if t.id = task.id then { t with status := !task.status } else t)
    ⟨newTasks,
     [Event.remoteUpdate task.id (!task.status),
      Event.localSet newTasks,
      Event.schedRem task.id (!task.status)]⟩
  else
    ⟨tasks,
     [Event.remoteUpdate task.id (!task.status),
      Event.alertMsg "Error" "Failed to update task status"]⟩

/-- `HomeScreen.handleDeleteTask`'s confirmed-delete continuation
(src/unnamed/part_000 lines 129-141, the `onPress` of the Delete button):
awaits `api.deleteTask(taskId)` first; on success filters the task out with
`setTasks` and then awaits `cancelTaskNotification(taskId)` — still inside
the same `try`, so a rejection of the notification call also lands in the
`catch` and shows the "Failed to delete task" alert. On remote rejection the
alert is shown and no local mutation occurs. -/
def handleDeleteTask (tasks : List Task) (taskId : Int) (remoteOk : Bool)
    (reminderOk : Bool) : HandlerResult :=
  if remoteOk then
    let newTasks := tasks.filter (fun task => task.id ≠ taskId)
    ⟨newTasks,
     Event.remoteDelete taskId :: Event.localSet newTasks :: Event.cancelRem taskId ::
       (if reminderOk then [] else [Event.alertMsg "Error" "Failed to delete task"])⟩
  else
    ⟨tasks, [Event.remoteDelete taskId, Event.alertMsg "Error" "Failed to delete task"]⟩

/-- `TaskCard.handleDelete`'s confirmed-delete continuation
(src/unnamed/part_000 lines 205-218). The source filter is
`prevTasks.filter(task => task.id !== task.id)`: the arrow-function
parameter `task` shadows the card's `task` prop, so both occurrences refer
to the element itself; the Lean lambda below shadows the `task` argument in
exactly the same way. -/
def taskCardHandleDelete (tasks : List Task) (task : Task) (remoteOk : Bool)
    (reminderOk : Bool) : HandlerResult :=
  if remoteOk then
    let newTasks := tasks.filter (fun task => task.id ≠ task.id)
    ⟨newTasks,
     Event.remoteDelete task.id :: Event.localSet newTasks :: Event.cancelRem task.id ::
       (if reminderOk then [] else [Event.alertMsg "Error" "Failed to delete task"])⟩
  else
    ⟨tasks, [Event.remoteDelete task.id, Event.alertMsg "Error" "Failed to delete task"]⟩

/-- `HomeScreen.filteredTasks` (src/unnamed/part_000 lines 168-170):
`tasks.filter(task => selectedCategory === null || task.category_id === selectedCategory)`. -/
def filteredTasks (tasks : List Task) (selectedCategory : Option Int) : List Task :=
  tasks.filter (fun task => selectedCategory = none ∨ task.category_id = selectedCategory)

/-- The completion partition computed by `HomeScreen`'s render
(src/unnamed/part_000 lines 313-347): the "In Progress" section is
`filter(task => !task.status)` and the "Completed" section is
`filter(task => task.status)`, in that order, both over the same list. -/
def partitionByCompletion (tasks : List Task) : List Task × List Task :=
  (tasks.filter (fun task => !task.status), tasks.filter (fun task => task.status))

/-- Decimal digit characters, as produced by JavaScript number-to-string
conversion: the value of digit `n` (only used for `n < 10`, where it agrees
with `Nat.digitChar`). -/
def charToDigit (c : Char) : Nat := c.toNat - 48

/-- Decimal string of a natural number (most significant digit first), the
model of JavaScript template interpolation of a non-negative integer. -/
def natToChars (n : Nat) : List Char :=
  if _h : n < 10 then [Nat.digitChar n]
  else natToChars (n / 10) ++ [Nat.digitChar (n % 10)]
  decreasing_by exact Nat.div_lt_self (by omega) (by omega)

/-- Decimal string of an integer: a leading `-` for negative values,
otherwise the digits alone. -/
def intToChars (i : Int) : List Char :=
  if i < 0 then '-' :: natToChars i.natAbs else natToChars i.toNat

/-- Value of a digit string read most-significant-first. -/
def digitsToNat (l : List Char) : Nat :=
  l.foldl (fun a c => a * 10 + charToDigit c) 0

/-- A JavaScript number that is not NaN: a finite value or a signed
infinity. -/
inductive JsNum where
  | finite (q : Rat)
  | posInf
  | negInf
  deriving DecidableEq, Repr

/-- JavaScript `String.prototype.trim`: strip whitespace from both ends of
the character list. -/
def trimList (l : List Char) : List Char :=
  ((l.dropWhile Char.isWhitespace).reverse.dropWhile Char.isWhitespace).reverse

/-- `trim` on a whole string (`String.trim` itself is modelled on the
underlying character list so that it stays kernel-computable). -/
def jsTrim (s : String) : String := ⟨trimList s.data⟩

/-- Model of the JavaScript `ToNumber` coercion of a string (already
whitespace-trimmed), restricted to the literal forms relevant here: the
empty string is `0`; `Infinity` with optional sign; an optionally signed
decimal literal `digits [. digits]` or `. digits`. Hex, binary and exponent
forms are omitted. `none` models NaN. -/
def jsNumberChars (l : List Char) : Option JsNum :=
  match l with
  | [] => some (JsNum.finite 0)
  | _ =>
    let sb : Int × List Char :=
      if l.head? = some '+' then (1, l.tail)
      else if l.head? = some '-' then (-1, l.tail)
      else (1, l)
    let sign := sb.1
    let body := sb.2
    if body = "Infinity".toList then
      some (if sign = 1 then JsNum.posInf else JsNum.negInf)
    else
      let ip := body.takeWhile Char.isDigit
      let rest := body.dropWhile Char.isDigit
      match rest with
      | [] => if ip.isEmpty then none
              else some (JsNum.finite (Rat.divInt (sign * (digitsToNat ip : Int)) 1))
      | '.' :: fr =>
          if (ip.isEmpty && fr.isEmpty) || !(fr.all Char.isDigit) then none
          else some (JsNum.finite (Rat.divInt
            (sign * ((digitsToNat ip * 10 ^ fr.length + digitsToNat fr : Nat) : Int))
            ((10 ^ fr.length : Nat) : Int)))
      | _ => none

/-- `ToNumber` on a whole string: `ToNumber` trims whitespace first. -/
def jsNumber (s : String) : Option JsNum := jsNumberChars (jsTrim s).toList

/-- The global `isNaN(s)` applied to a string, as used by `handleSave`'s
amount check: true when `ToNumber(s)` is NaN. -/
def jsIsNaN (s : String) : Bool := (jsNumber s).isNone

/-- `NewExpenseScreen.handleSave` (src/src/screens/NewExpenseScreen.js
lines 54-87): rejects an empty trimmed title, then an empty trimmed amount
or an amount for which `isNaN(amount)` holds, each with a validation alert
and an early return before any remote call. Otherwise it issues the remote
update (when editing) or create, then shows the success alert and navigates
back, or shows the save-error alert on rejection. The form state mentioned
nowhere in the trace is untouched. -/
def handleSave (title amount : String) (isEditing : Bool) (editingId : Int)
    (remoteOk : Bool) : List Event :=
  if jsTrim title = "" then
    [Event.alertMsg "Error" "Please enter an expense title"]
  else if jsTrim amount = "" ∨ jsIsNaN amount then
    [Event.alertMsg "Error" "Please enter a valid amount"]
  else
    (if isEditing then Event.remoteUpdateExpense editingId title
     else Event.remoteCreateExpense title) ::
      (if remoteOk then
        [Event.alertMsg "Success"
           (if isEditing then "Expense updated successfully"
            else "Expense added successfully"),
         Event.navGoBack]
       else [Event.alertMsg "Error" "Failed to save expense"])

/-- The month-name table shared by `formatDate` and the `selectedDate`
initializer (src/src/screens/NewExpenseScreen.js lines 30 and 40). -/
def monthNames : List (List Char) :=
  ["Jan".toList, "Feb".toList, "Mar".toList, "Apr".toList, "May".toList,
   "Jun".toList, "Jul".toList, "Aug".toList, "Sep".toList, "Oct".toList,
   "Nov".toList, "Dec".toList]

/-- A JavaScript `Date` as observed through `getFullYear` / `getMonth` /
`getDate`: `month` is 0-based (always in `0..11` for a valid date), `day`
is 1-based. -/
structure JsDate where
  year : Int
  month : Nat
  day : Nat
  deriving DecidableEq, Repr

/-- `NewExpenseScreen.formatDate` (src/src/screens/NewExpenseScreen.js
lines 39-45): the template `\x7bmonth\x7d \x7bday\x7d, \x7byear\x7d` with the month name
looked up in `monthNames`. -/
def formatDate (d : JsDate) : List Char :=
  (monthNames.getD d.month []) ++ (' ' :: natToChars d.day) ++
    (',' :: ' ' :: intToChars d.year)

/-- JavaScript `String.prototype.replace` with the one-character string
pattern `c` and an empty replacement: removes the first occurrence of `c`
only, leaving the string unchanged when `c` does not occur. -/
def replaceFirst (l : List Char) (c : Char) : List Char :=
  match l with
  | [] => []
  | x :: xs => if x = c then xs else x :: replaceFirst xs c

/-- JavaScript `parseInt(s)` (radix 10 inferred for the inputs at hand):
skips leading spaces, reads an optional sign and then the longest digit
run; NaN (`none`) when that run is empty. -/
def parseIntJs (l : List Char) : Option Int :=
  let l1 := l.dropWhile (· = ' ')
  let sb : Int × List Char :=
    if l1.head? = some '+' then (1, l1.tail)
    else if l1.head? = some '-' then (-1, l1.tail)
    else (1, l1)
  let ds := sb.2.takeWhile Char.isDigit
  if ds.isEmpty then none else some (sb.1 * (digitsToNat ds : Int))

/-- `ToNumber` coercion of the `Date` constructor's year-string argument,
restricted to the integer-literal fragment (the screen's data flow never
feeds it a fractional, hex or `Infinity` form): trimmed empty string is
`0`, an optionally signed all-digit string is its value, anything else is
NaN (`none`). -/
def jsToNumberInt (l : List Char) : Option Int :=
  let t := (l.dropWhile (· = ' ')).reverse.dropWhile (· = ' ') |>.reverse
  if t.isEmpty then some 0
  else
    let sb : Int × List Char :=
      if t.head? = some '+' then (1, t.tail)
      else if t.head? = some '-' then (-1, t.tail)
      else (1, t)
    if sb.2.isEmpty || !(sb.2.all Char.isDigit) then none
    else some (sb.1 * (digitsToNat sb.2 : Int))

/-- Proleptic-Gregorian leap-year rule, as implemented by the JavaScript
`Date` object. -/
def isLeapYear (y : Int) : Bool :=
  y % 4 = 0 && (y % 100 ≠ 0 || y % 400 = 0)

/-- Number of days in 0-based month `m` of year `y`. -/
def daysInMonth (y : Int) (m : Nat) : Nat :=
  match m with
  | 0 => 31
  | 1 => if isLeapYear y then 29 else 28
  | 2 => 31
  | 3 => 30
  | 4 => 31
  | 5 => 30
  | 6 => 31
  | 7 => 31
  | 8 => 30
  | 9 => 31
  | 10 => 30
  | _ => 31

/-- Days since 1970-01-01 of the civil date `(y, m, d)` with `m` 1-based,
the standard era-based conversion used to model `Date`'s day arithmetic. -/
def daysFromCivil (y : Int) (m : Nat) (d : Nat) : Int :=
  let yAdj := if m ≤ 2 then y - 1 else y
  let era := yAdj / 400
  let yoe := yAdj - era * 400
  let mp : Int := ((m : Int) + 9) % 12
  let doy := (153 * mp + 2) / 5 + (d : Int) - 1
  let doe := yoe * 365 + yoe / 4 - yoe / 100 + doy
  era * 146097 + doe - 719468

/-- Civil date `(y, m 1-based, d)` of a count of days since 1970-01-01,
inverse of `daysFromCivil`. -/
def civilFromDays (z : Int) : Int × Nat × Nat :=
  let z1 := z + 719468
  let era := z1 / 146097
  let doe := z1 - era * 146097
  let yoe := (doe - doe / 1460 + doe / 36524 - doe / 146096) / 365
  let y := yoe + era * 400
  let doy := doe - (365 * yoe + yoe / 4 - yoe / 100)
  let mp := (5 * doy + 2) / 153
  let d := doy - (153 * mp + 2) / 5 + 1
  let m := if mp < 10 then mp + 3 else mp - 9
  ((if m ≤ 2 then y + 1 else y), m.toNat, d.toNat)

/-- The `new Date(year, monthIndex, day)` constructor on numeric arguments:
a year in `0..99` is offset to `1900 + year`; an out-of-range month rolls
over into the year (floor division, which `Int` `/` and `%` give for
the positive divisor 12); a day outside `1..daysInMonth` rolls over through
the civil-day conversion, while an in-range day is stored as is. -/
def jsMakeDate (y m d : Int) : JsDate :=
  let yr := if 0 ≤ y ∧ y ≤ 99 then 1900 + y else y
  let ym := yr * 12 + m
  let yy := ym / 12
  let mm := (ym % 12).toNat
  if 1 ≤ d ∧ d ≤ (daysInMonth yy mm : Int) then ⟨yy, mm, d.toNat⟩
  else
    let c := civilFromDays (daysFromCivil yy (mm + 1) 1 + (d - 1))
    ⟨c.1, c.2.1 - 1, c.2.2⟩

/-- The `selectedDate` initializer's parse of a backend `expense_date`
string (src/src/screens/NewExpenseScreen.js lines 26-35):
`replace(',', '')`, `split(' ')`, destructure `[month, day, year]`, look
the month up in `monthNames` (`indexOf`, `-1` when absent), then
`new Date(year, monthIndex, parseInt(day))`. `none` models an Invalid Date
(a NaN year or day component); a missing part is `undefined`, which
coerces to NaN. -/
def parseExpenseDate (s : List Char) : Option JsDate :=
  let cleaned := replaceFirst s ','
  let parts := cleaned.splitOn ' '
  let month := (parts.get? 0).getD []
  let monthIndex : Int :=
    match monthNames.indexOf? month with
    | some i => (i : Int)
    | none => -1
  match (parts.get? 2).bind jsToNumberInt, (parts.get? 1).bind parseIntJs with
  | some yv, some dv => some (jsMakeDate yv monthIndex dv)
  | _, _ => none

/-! ## Helper lemmas -/

/-- The two completion filters split a list's length exactly. -/
theorem length_filter_status_partition (tasks : List Task) :
    (tasks.filter (fun task => !task.status)).length +
      (tasks.filter (fun task => task.status)).length = tasks.length := by
  induction tasks with
  | nil => rfl
  | cons t ts ih => cases h : t.status <;> simp [List.filter_cons, h] <;> omega

/-! ## Claims -/

/-- C7: `partitionByCompletion` yields the incomplete entities first and the
completed ones second, each a subsequence of the input (so relative order is
preserved); the two lengths sum to the input length; membership in each part
is exactly membership in the input with the corresponding `completionFlag`
(so every entity lands in exactly one part); and on the three-entity example
the parts carry ids `[1, 3]` and `[2]`. -/
theorem partitionByCompletion_spec :
    (∀ tasks : List Task,
      (partitionByCompletion tasks).1.length + (partitionByCompletion tasks).2.length
          = tasks.length ∧
      (partitionByCompletion tasks).1.Sublist tasks ∧
      (partitionByCompletion tasks).2.Sublist tasks ∧
      (∀ t : Task, t ∈ (partitionByCompletion tasks).1 ↔ t ∈ tasks ∧ t.status = false) ∧
      (∀ t : Task, t ∈ (partitionByCompletion tasks).2 ↔ t ∈ tasks ∧ t.status = true)) ∧
    (partitionByCompletion
        [⟨1, "", false, none⟩, ⟨2, "", true, none⟩, ⟨3, "", false, none⟩]).1.map Task.id
        = [1, 3] ∧
    (partitionByCompletion
        [⟨1, "", false, none⟩, ⟨2, "", true, none⟩, ⟨3, "", false, none⟩]).2.map Task.id
        = [2] := by
  refine ⟨fun tasks => ⟨length_filter_status_partition tasks, ?_, ?_, ?_, ?_⟩, by decide, by decide⟩
  · exact List.filter_sublist tasks
  · exact List.filter_sublist tasks
  · intro t; simp [partitionByCompletion]
  · intro t; simp [partitionByCompletion]

/-- C8: the category filter with the `All` sentinel (`null`) is the identity
on the collection, and with a concrete category id it keeps exactly the
entities whose `category_id` equals that id (as an order-preserving filter,
and characterized by membership). -/
theorem byCategory_spec (tasks : List Task) :
    filteredTasks tasks none = tasks ∧
    (∀ c : Int, filteredTasks tasks (some c)
        = tasks.filter (fun task => task.category_id = some c)) ∧
    (∀ (c : Int) (t : Task),
        t ∈ filteredTasks tasks (some c) ↔ t ∈ tasks ∧ t.category_id = some c) := by
  refine ⟨?_, ?_, ?_⟩
  · simp [filteredTasks]
  · intro c
    apply List.filter_congr
    intro x _
    simp
  · intro c t
    simp [filteredTasks]

/-- C3 (code bug): on a successful remote delete, `TaskCard.handleDelete`
clears the whole local collection instead of removing only the card's task:
its filter predicate `task => task.id !== task.id` compares each element's
id with itself because the lambda parameter shadows the card's `task` prop.
Deleting task 1 from `[task 1, task 2]` leaves `[]`, not `[task 2]`; the
dead sibling handler `handleDeleteTask` filters correctly. -/
theorem taskCardHandleDelete_clears_collection :
    (taskCardHandleDelete [⟨1, "a", false, none⟩, ⟨2, "b", true, none⟩]
        ⟨1, "a", false, none⟩ true true).tasks = [] ∧
    ([] : List Task) ≠ [⟨2, "b", true, none⟩] ∧
    (handleDeleteTask [⟨1, "a", false, none⟩, ⟨2, "b", true, none⟩] 1 true true).tasks
        = [⟨2, "b", true, none⟩] := by
  refine ⟨by decide, by decide, by decide⟩

/-- C9 (code bug): in `handleDeleteTask`, `cancelTaskNotification` is
awaited inside the same `try` as the delete, so its rejection is surfaced
to the user as the "Failed to delete task" alert even though the delete
succeeded remotely and locally (the local removal is not rolled back). -/
theorem handleDeleteTask_surfaces_reminder_failure :
    (Event.alertMsg "Error" "Failed to delete task"
        ∈ (handleDeleteTask [⟨1, "a", false, none⟩] 1 true false).events) ∧
    (handleDeleteTask [⟨1, "a", false, none⟩] 1 true false).tasks = [] ∧
    (handleDeleteTask [⟨1, "a", false, none⟩] 1 true false).tasks
        = (handleDeleteTask [⟨1, "a", false, none⟩] 1 true true).tasks := by
  refine ⟨by decide, by decide, by decide⟩

/-- C6 counterexample: a successful `fetchTasks` run that loads two tasks
returns no value at all (the async function body has no `return`), so
`load()` does not return the count loaded. -/
theorem fetchTasks_returns_no_count :
    (fetchTasks [] (some [⟨1, "a", false, none⟩, ⟨2, "b", true, none⟩])).retVal = none ∧
    (fetchTasks [] (some [⟨1, "a", false, none⟩, ⟨2, "b", true, none⟩])).tasks.length = 2 := by
  refine ⟨rfl, rfl⟩

/-- C6 amended: `fetchTasks` on success replaces the entire local
collection with the fetched one; on remote failure it surfaces the fetch
alert and leaves the previous collection exactly unchanged; it returns no
count (its return value is always `undefined`). -/
theorem fetchTasks_spec :
    (∀ (prev ts : List Task), (fetchTasks prev (some ts)).tasks = ts) ∧
    (∀ prev : List Task, (fetchTasks prev none).tasks = prev ∧
      Event.alertMsg "Error" "Failed to fetch tasks" ∈ (fetchTasks prev none).events) ∧
    (∀ (prev : List Task) (res : Option (List Task)), (fetchTasks prev res).retVal = none) := by
  refine ⟨fun prev ts => rfl, fun prev => ⟨rfl, ?_⟩, fun prev res => ?_⟩
  · simp [fetchTasks]
  · cases res <;> rfl

/-- C1 counterexample: on the store `[{id 5, completionFlag false}]`,
toggling task 5 issues the remote update as the very first effect on both
the failing and the successful run; the failing run's trace contains no
local write at all (there is no optimistically applied patch and hence no
rollback), contradicting "applies the patch ... before the remote update
is issued". -/
theorem handleToggleStatus_not_optimistic :
    (handleToggleStatus [⟨5, "X", false, none⟩] 5 false false).events =
      [Event.remoteUpdate 5 true, Event.alertMsg "Error" "Failed to update task status"] ∧
    (handleToggleStatus [⟨5, "X", false, none⟩] 5 false true).events =
      [Event.remoteUpdate 5 true, Event.schedRem 5 true,
       Event.localSet [⟨5, "X", true, none⟩],
       Event.alertMsg "Success" "Task marked as completed"] := by
  refine ⟨by decide, by decide⟩

/-- C1 amended: the status update is remote-first, not optimistic: the
remote call is the first emitted effect; the local copy is patched only
after remote success; on remote failure no local write occurs and the error
alert is surfaced, so the post-call local state equals the pre-call state.
Both `handleToggleStatus` and `TaskCard.handleStatusChange` behave so. -/
theorem update_remote_first_spec :
    (∀ (tasks : List Task) (taskId : Int) (cur : Bool),
      (handleToggleStatus tasks taskId cur false).tasks = tasks ∧
      Event.alertMsg "Error" "Failed to update task status"
          ∈ (handleToggleStatus tasks taskId cur false).events ∧
      (handleToggleStatus tasks taskId cur false).events.all (fun e => !e.isLocalSet) = true ∧
      (handleToggleStatus tasks taskId cur true).tasks =
        tasks.map (fun t => if t.id = taskId then { t with status := !cur } else t) ∧
      (∃ rest, (handleToggleStatus tasks taskId cur true).events
            = Event.remoteUpdate taskId (!cur) :: rest ∧
          Event.localSet ((handleToggleStatus tasks taskId cur true).tasks) ∈ rest)) ∧
    (∀ (tasks : List Task) (task : Task),
      (handleStatusChange tasks task false).tasks = tasks ∧
      (handleStatusChange tasks task false).events.all (fun e => !e.isLocalSet) = true ∧
      (handleStatusChange tasks task true).tasks =
        tasks.map (fun t => if t.id = task.id then { t with status := !task.status } else t) ∧
      (∃ rest, (handleStatusChange tasks task true).events
            = Event.remoteUpdate task.id (!task.status) :: rest ∧
          Event.localSet ((handleStatusChange tasks task true).tasks) ∈ rest)) := by
  constructor
  · intro tasks taskId cur
    refine ⟨rfl, ?_, rfl, rfl, ?_⟩
    · simp [handleToggleStatus]
    · exact ⟨_, rfl, by simp [handleToggleStatus]⟩
  · intro tasks task
    refine ⟨rfl, rfl, rfl, ?_⟩
    exact ⟨_, rfl, by simp [handleStatusChange]⟩

/-- C2 counterexample: deleting task 7 issues the remote delete as the very
first effect; on the failing run the trace contains no local write (the
entity was never removed locally, so no reinsertion happens either),
contradicting "removes it from the local collection immediately, before the
remote delete is issued". -/
theorem handleDeleteTask_not_optimistic :
    (handleDeleteTask [⟨7, "a", false, none⟩] 7 false true).events =
      [Event.remoteDelete 7, Event.alertMsg "Error" "Failed to delete task"] ∧
    (handleDeleteTask [⟨7, "a", false, none⟩] 7 true true).events =
      [Event.remoteDelete 7, Event.localSet [], Event.cancelRem 7] := by
  refine ⟨by decide, by decide⟩

/-- C2 amended: `handleDeleteTask` is remote-first, not optimistic: the
remote delete is the first emitted effect; the local removal (an id-filter
of the collection) happens only after remote success; on remote failure no
local write occurs and the error alert is surfaced, so the failure path
leaves the collection equal to its pre-call value without any reinsertion. -/
theorem remove_remote_first_spec (tasks : List Task) (taskId : Int) :
    ((handleDeleteTask tasks taskId false true).tasks = tasks ∧
     Event.alertMsg "Error" "Failed to delete task"
         ∈ (handleDeleteTask tasks taskId false true).events ∧
     (handleDeleteTask tasks taskId false true).events.all (fun e => !e.isLocalSet) = true) ∧
    ((handleDeleteTask tasks taskId true true).tasks
        = tasks.filter (fun task => task.id ≠ taskId) ∧
     (∃ rest, (handleDeleteTask tasks taskId true true).events
           = Event.remoteDelete taskId :: rest ∧
         Event.localSet ((handleDeleteTask tasks taskId true true).tasks) ∈ rest)) := by
  refine ⟨⟨rfl, ?_, rfl⟩, ⟨rfl, ⟨_, rfl, ?_⟩⟩⟩
  · simp [handleDeleteTask]
  · simp [handleDeleteTask]

/-- C5 counterexample: on a run where the remote update fails, no
notification-scheduler call is emitted at all — by neither
`handleToggleStatus` nor `TaskCard.handleStatusChange` — contradicting "the
reminder notification is emitted even on a run where the remote update
fails". -/
theorem toggle_reminder_not_emitted_on_failure :
    (handleToggleStatus [⟨5, "X", false, none⟩] 5 false false).events.all
        (fun e => !e.isSchedRem) = true ∧
    (handleStatusChange [⟨5, "X", false, none⟩] ⟨5, "X", false, none⟩ false).events.all
        (fun e => !e.isSchedRem) = true := by
  refine ⟨by decide, by decide⟩

/-- C5 amended: the ReminderCoordinator is notified of the new state only
after the remote update succeeds — the remote call is the first emitted
effect and the reminder call is emitted on exactly the successful runs (for
`handleToggleStatus`, once per matching task; `handleStatusChange` always
notifies for the card's task); on a failed remote update no reminder call
is emitted. -/
theorem toggle_reminder_after_remote_spec :
    (∀ (tasks : List Task) (taskId : Int) (cur : Bool),
      (handleToggleStatus tasks taskId cur false).events.all (fun e => !e.isSchedRem) = true ∧
      (Event.schedRem taskId (!cur) ∈ (handleToggleStatus tasks taskId cur true).events ↔
        ∃ t ∈ tasks, t.id = taskId) ∧
      (∃ rest, (handleToggleStatus tasks taskId cur true).events
          = Event.remoteUpdate taskId (!cur) :: rest)) ∧
    (∀ (tasks : List Task) (task : Task),
      (handleStatusChange tasks task false).events.all (fun e => !e.isSchedRem) = true ∧
      (handleStatusChange tasks task true).events =
        [Event.remoteUpdate task.id (!task.status),
         Event.localSet ((handleStatusChange tasks task true).tasks),
         Event.schedRem task.id (!task.status)]) := by
  constructor
  · intro tasks taskId cur
    refine ⟨rfl, ?_, ⟨_, rfl⟩⟩
    have hev : (handleToggleStatus tasks taskId cur true).events
        = Event.remoteUpdate taskId (!cur) ::
            (tasks.filterMap (fun task =>
              if task.id = taskId then some (Event.schedRem task.id (!cur)) else none) ++
             [Event.localSet (tasks.map (fun task =>
                if task.id = taskId then { task with status := !cur } else task)),
              Event.alertMsg "Success"
                ("Task marked as " ++ if !cur then "completed" else "incomplete")]) := rfl
    rw [hev]
    constructor
    · intro h
      rcases List.mem_cons.mp h with h1 | h2
      · exact absurd h1 (by simp)
      · rcases List.mem_append.mp h2 with h3 | h4
        · rcases List.mem_filterMap.mp h3 with ⟨t, ht, hf⟩
          by_cases hid : t.id = taskId
          · exact ⟨t, ht, hid⟩
          · rw [if_neg hid] at hf
            cases hf
        · exact absurd h4 (by simp)
    · rintro ⟨t, ht, hid⟩
      apply List.mem_cons_of_mem
      apply List.mem_append_left
      exact List.mem_filterMap.mpr ⟨t, ht, by rw [if_pos hid, hid]⟩
  · intro tasks task
    exact ⟨rfl, rfl⟩


/-- C4 counterexample: the draft `{title: "Lunch", amount: "-10"}` has an
amount that parses as the finite negative number `-10`, yet `handleSave`
does not fail validation: the remote client is invoked. The only amount
checks are non-empty-after-trim and `isNaN`; sign and finiteness are not
validated. -/
theorem handleSave_accepts_negative_amount :
    (handleSave "Lunch" "-10" false 0 true).any (fun e => e.isRemote) = true ∧
    jsNumber "-10" = some (JsNum.finite (Rat.divInt (-10) 1)) ∧ (Rat.divInt (-10) 1 < 0) := by
  refine ⟨by decide, by decide, by decide⟩

/-- C4 amended: `handleSave` fails with a validation alert before any
remote call exactly when the trimmed title is empty, the trimmed amount is
empty, or the amount does not coerce to a number at all (`isNaN`); on every
such invalid draft the emitted trace is a single validation alert (no
remote call, no other effect). Amounts that parse as negative or infinite
numbers are not rejected. -/
theorem handleSave_validation_spec (title amount : String) (ed : Bool) (eid : Int)
    (ok : Bool) :
    ((handleSave title amount ed eid ok).any (fun e => e.isRemote) = false ↔
      (jsTrim title = "" ∨ jsTrim amount = "" ∨ jsIsNaN amount = true)) ∧
    ((jsTrim title = "" ∨ jsTrim amount = "" ∨ jsIsNaN amount = true) →
      ∃ msg, handleSave title amount ed eid ok = [Event.alertMsg "Error" msg]) := by
  by_cases h1 : jsTrim title = ""
  · have hs : handleSave title amount ed eid ok
        = [Event.alertMsg "Error" "Please enter an expense title"] := by
      simp [handleSave, h1]
    constructor
    · rw [hs]
      exact iff_of_true rfl (Or.inl h1)
    · intro _
      exact ⟨"Please enter an expense title", hs⟩
  · by_cases h2 : jsTrim amount = "" ∨ jsIsNaN amount = true
    · have hs : handleSave title amount ed eid ok
          = [Event.alertMsg "Error" "Please enter a valid amount"] := by
        simp only [handleSave, if_neg h1]
        rw [if_pos h2]
      constructor
      · rw [hs]
        exact iff_of_true rfl (Or.inr h2)
      · intro _
        exact ⟨"Please enter a valid amount", hs⟩
    · have hs : handleSave title amount ed eid ok
          = (if ed then Event.remoteUpdateExpense eid title
             else Event.remoteCreateExpense title) ::
              (if ok then
                [Event.alertMsg "Success"
                   (if ed then "Expense updated successfully"
                    else "Expense added successfully"),
                 Event.navGoBack]
               else [Event.alertMsg "Error" "Failed to save expense"]) := by
        simp only [handleSave, if_neg h1]
        rw [if_neg h2]
      constructor
      · rw [hs]
        constructor
        · intro hfalse
          exfalso
          cases ed <;> simp [Event.isRemote] at hfalse
        · intro h
          exfalso
          rcases h with h | h
          · exact h1 h
          · exact h2 h
      · intro h
        exfalso
        rcases h with h | h
        · exact h1 h
        · exact h2 h

/-- C4 witness: the specification's own scenario — a draft with empty title
and amount `"10"` — is rejected with a single validation alert and no
remote call. -/
theorem handleSave_validation_spec_witness :
    ∃ msg, handleSave "" "10" false 0 true = [Event.alertMsg "Error" msg] :=
  (handleSave_validation_spec "" "10" false 0 true).2 (Or.inl (by decide))

/-! ## Decimal digit-string lemmas for the date round trip -/

/-- Reading back the digit character of `n < 10` gives `n`. -/
theorem charToDigit_digitChar {n : Nat} (h : n < 10) :
    charToDigit (Nat.digitChar n) = n := by
  interval_cases n <;> rfl

/-- The digit character of `n < 10` is a decimal digit. -/
theorem isDigit_digitChar {n : Nat} (h : n < 10) :
    (Nat.digitChar n).isDigit = true := by
  interval_cases n <;> decide

/-- A decimal digit is none of the separator or sign characters. -/
theorem isDigit_facts {c : Char} (h : c.isDigit = true) :
    c ≠ ' ' ∧ c ≠ ',' ∧ c ≠ '+' ∧ c ≠ '-' := by
  refine ⟨?_, ?_, ?_, ?_⟩ <;> rintro rfl <;> exact absurd h (by decide)

/-- `natToChars` never produces the empty string. -/
theorem natToChars_ne_nil (n : Nat) : natToChars n ≠ [] := by
  rw [natToChars]
  by_cases h : n < 10
  · rw [dif_pos h]
    simp
  · rw [dif_neg h]
    simp

/-- Every character `natToChars` produces is a decimal digit. -/
theorem natToChars_all_isDigit (n : Nat) : ∀ c ∈ natToChars n, c.isDigit = true := by
  induction n using Nat.strong_induction_on with
  | _ n ih =>
    rw [natToChars]
    by_cases h : n < 10
    · rw [dif_pos h]
      intro c hc
      rw [List.mem_singleton] at hc
      subst hc
      exact isDigit_digitChar h
    · rw [dif_neg h]
      intro c hc
      rcases List.mem_append.mp hc with hc | hc
      · exact ih (n / 10) (Nat.div_lt_self (by omega) (by omega)) c hc
      · rw [List.mem_singleton] at hc
        subst hc
        exact isDigit_digitChar (Nat.mod_lt n (by omega))

/-- Appending one digit multiplies the accumulated value by ten. -/
theorem digitsToNat_append_singleton (l : List Char) (c : Char) :
    digitsToNat (l ++ [c]) = digitsToNat l * 10 + charToDigit c := by
  simp [digitsToNat, List.foldl_append]

/-- Reading the decimal string of `n` back gives `n`. -/
theorem digitsToNat_natToChars (n : Nat) : digitsToNat (natToChars n) = n := by
  induction n using Nat.strong_induction_on with
  | _ n ih =>
    rw [natToChars]
    by_cases h : n < 10
    · rw [dif_pos h]
      show digitsToNat ([] ++ [Nat.digitChar n]) = n
      rw [digitsToNat_append_singleton]
      simp [digitsToNat, charToDigit_digitChar h]
    · rw [dif_neg h]
      rw [digitsToNat_append_singleton,
        ih (n / 10) (Nat.div_lt_self (by omega) (by omega)),
        charToDigit_digitChar (Nat.mod_lt n (by omega))]
      omega

/-- A nonempty all-digit string is untouched by space-stripping, sign
detection and digit-run extraction. -/
theorem digits_list_facts {l : List Char} (hne : l ≠ [])
    (hd : ∀ c ∈ l, c.isDigit = true) :
    l.dropWhile (· = ' ') = l ∧
    l.takeWhile Char.isDigit = l ∧
    l.head? ≠ some '+' ∧ l.head? ≠ some '-' ∧
    l.isEmpty = false ∧ l.all Char.isDigit = true := by
  obtain ⟨c, cs, rfl⟩ := List.exists_cons_of_ne_nil hne
  have hc := isDigit_facts (hd c (List.mem_cons_self c cs))
  refine ⟨?_, ?_, ?_, ?_, rfl, ?_⟩
  · rw [List.dropWhile_cons, if_neg (by simp [hc.1])]
  · exact List.takeWhile_eq_self_iff.mpr hd
  · simp only [List.head?_cons, ne_eq, Option.some.injEq]
    exact hc.2.2.1
  · simp only [List.head?_cons, ne_eq, Option.some.injEq]
    exact hc.2.2.2
  · exact List.all_eq_true.mpr hd

/-- Removing the first `c` from `a ++ c :: b` when `a` does not contain
`c` yields `a ++ b`. -/
theorem replaceFirst_append {c : Char} {a : List Char} (h : c ∉ a) (b : List Char) :
    replaceFirst (a ++ c :: b) c = a ++ b := by
  induction a with
  | nil => simp [replaceFirst]
  | cons x xs ih =>
    have hx : x ≠ c := fun hxc => h (hxc ▸ List.mem_cons_self x xs)
    simp only [List.cons_append, replaceFirst, if_neg (fun hcx => hx hcx)]
    exact congrArg (x :: ·) (ih (fun hm => h (List.mem_cons_of_mem x hm)))

/-- Splitting `mn ++ ' ' :: (nd ++ ' ' :: ny)` on spaces gives the three
components when none of them contains a space. -/
theorem splitOn_three {mn nd ny : List Char} (h1 : ' ' ∉ mn) (h2 : ' ' ∉ nd)
    (h3 : ' ' ∉ ny) :
    (mn ++ ' ' :: (nd ++ ' ' :: ny)).splitOn ' ' = [mn, nd, ny] := by
  have hp : ∀ a : List Char, ' ' ∉ a → ∀ x ∈ a, ¬((x == ' ') = true) := by
    intro a ha x hx hbeq
    rw [beq_iff_eq] at hbeq
    exact ha (hbeq ▸ hx)
  rw [List.splitOn, List.splitOnP_first _ _ (hp mn h1) ' ' (by simp),
    List.splitOnP_first _ _ (hp nd h2) ' ' (by simp),
    List.splitOnP_eq_single _ _ (hp ny h3)]

/-- For each valid month index, looking the month's name back up in the
table returns the index, and the name contains no space or comma. -/
theorem monthNames_facts {m : Nat} (h : m < 12) :
    monthNames.indexOf? (monthNames.getD m []) = some m ∧
    ' ' ∉ monthNames.getD m [] ∧ ',' ∉ monthNames.getD m [] := by
  interval_cases m <;> exact ⟨by decide, by decide, by decide⟩

/-- `parseIntJs` on a nonempty all-digit string reads its decimal value. -/
theorem parseIntJs_digits {l : List Char} (hne : l ≠ [])
    (hd : ∀ c ∈ l, c.isDigit = true) :
    parseIntJs l = some ((digitsToNat l : Nat) : Int) := by
  obtain ⟨hdrop, htake, hplus, hminus, hempty, -⟩ := digits_list_facts hne hd
  simp only [parseIntJs, hdrop, if_neg hplus, if_neg hminus, htake, hempty,
    Bool.false_eq_true, if_false, one_mul]

/-- `jsToNumberInt` on a nonempty all-digit string reads its decimal
value. -/
theorem jsToNumberInt_digits {l : List Char} (hne : l ≠ [])
    (hd : ∀ c ∈ l, c.isDigit = true) :
    jsToNumberInt l = some ((digitsToNat l : Nat) : Int) := by
  obtain ⟨hdrop, -, hplus, hminus, hempty, hall⟩ := digits_list_facts hne hd
  have hrne : l.reverse ≠ [] := by simp [hne]
  have hrd : ∀ c ∈ l.reverse, c.isDigit = true := by
    intro c hc
    exact hd c (List.mem_reverse.mp hc)
  obtain ⟨hrdrop, -, -, -, -, -⟩ := digits_list_facts hrne hrd
  simp only [jsToNumberInt, hdrop, hrdrop, List.reverse_reverse, hempty,
    Bool.false_eq_true, if_false, if_neg hplus, if_neg hminus, hall,
    Bool.not_true, Bool.or_false, one_mul]

/-- `new Date(y, m, d)` with a four-digit-or-later year, a month index in
range and a day within the month stores its arguments unchanged. -/
theorem jsMakeDate_in_range (y : Int) (m d : Nat) (hy : 100 ≤ y) (hm : m < 12)
    (hd1 : 1 ≤ d) (hd2 : d ≤ daysInMonth y m) :
    jsMakeDate y (m : Int) (d : Int) = ⟨y, m, d⟩ := by
  have hyr : ¬(0 ≤ y ∧ y ≤ 99) := by omega
  have h1 : (y * 12 + (m : Int)) / 12 = y := by omega
  have h2 : ((y * 12 + (m : Int)) % 12).toNat = m := by omega
  have h3 : ((d : Int)).toNat = d := by omega
  simp only [jsMakeDate, if_neg hyr, h1, h2, h3]
  rw [if_pos (by constructor <;> omega)]

/-- C10: round-trip of the expense date boundary conversion — parsing the
display string `formatDate(d)` ("Mon D, YYYY") with the month-name/day/year
parser that initializes the edit screen's `selectedDate` yields a date with
the same year, month and day, for every four-digit year, month index in
`0..11`, and day valid for that calendar month. -/
theorem expenseDate_roundTrip (y : Int) (m d : Nat) (hm : m < 12)
    (hy1 : 1000 ≤ y) (hy2 : y ≤ 9999) (hd1 : 1 ≤ d) (hd2 : d ≤ daysInMonth y m) :
    parseExpenseDate (formatDate ⟨y, m, d⟩) = some (⟨y, m, d⟩ : JsDate) := by
  obtain ⟨hidx, hmsp, hmcm⟩ := monthNames_facts hm
  have hdfd : ∀ c ∈ natToChars d, c.isDigit = true := natToChars_all_isDigit d
  have hdfy : ∀ c ∈ natToChars y.toNat, c.isDigit = true := natToChars_all_isDigit y.toNat
  have hnd := natToChars_ne_nil d
  have hny := natToChars_ne_nil y.toNat
  have hndsp : ' ' ∉ natToChars d := fun hmem => (isDigit_facts (hdfd _ hmem)).1 rfl
  have hndcm : ',' ∉ natToChars d := fun hmem => (isDigit_facts (hdfd _ hmem)).2.1 rfl
  have hnysp : ' ' ∉ natToChars y.toNat := fun hmem => (isDigit_facts (hdfy _ hmem)).1 rfl
  have hfmt : formatDate ⟨y, m, d⟩
      = (monthNames.getD m [] ++ ' ' :: natToChars d) ++ ',' :: (' ' :: natToChars y.toNat) := by
    simp only [formatDate, intToChars, if_neg (by omega : ¬ y < 0)]
  have hnotmem : ',' ∉ monthNames.getD m [] ++ ' ' :: natToChars d := by
    intro hmem
    rcases List.mem_append.mp hmem with h | h
    · exact hmcm h
    · rcases List.mem_cons.mp h with h | h
      · exact (by decide : (',' : Char) ≠ ' ') h
      · exact hndcm h
  have hsplit : (replaceFirst (formatDate ⟨y, m, d⟩) ',').splitOn ' '
      = [monthNames.getD m [], natToChars d, natToChars y.toNat] := by
    rw [hfmt, replaceFirst_append hnotmem]
    rw [show (monthNames.getD m [] ++ ' ' :: natToChars d) ++ ' ' :: natToChars y.toNat
        = monthNames.getD m [] ++ ' ' :: (natToChars d ++ ' ' :: natToChars y.toNat) by
      simp [List.append_assoc]]
    exact splitOn_three hmsp hndsp hnysp
  have hyv : jsToNumberInt (natToChars y.toNat) = some y := by
    rw [jsToNumberInt_digits hny hdfy, digitsToNat_natToChars]
    congr 1
    omega
  have hdv : parseIntJs (natToChars d) = some ((d : Nat) : Int) := by
    rw [parseIntJs_digits hnd hdfd, digitsToNat_natToChars]
  simp only [parseExpenseDate, hsplit, List.get?_cons_zero, List.get?_cons_succ,
    Option.getD_some, Option.some_bind, hidx, hyv, hdv]
  exact congrArg some (jsMakeDate_in_range y m d (by omega) hm hd1 hd2)

/-- C10 witness: the round trip at the concrete date Dec 10, 2024. -/
theorem expenseDate_roundTrip_witness :
    parseExpenseDate (formatDate ⟨2024, 11, 10⟩) = some (⟨2024, 11, 10⟩ : JsDate) :=
  expenseDate_roundTrip 2024 11 10 (by decide) (by decide) (by decide) (by decide)
    (by decide)

end Poket
